import Mathlib

/-!
# Verification of the `jtplot` styling pipeline

Shallow embedding of `src/jupyterthemes/jtplot.py`.

Modelling conventions:
* Python numeric literals are modelled as exact rationals (`ℚ`).  Every claim
  below compares symbolic products (`v * scaling`), so the statements are
  insensitive to binary floating-point rounding.
* A Python `dict` is modelled as an association list with unique keys in
  insertion order; `dict.update` replaces the value in place for an existing
  key and appends new keys in order, exactly like CPython.
* File I/O is made explicit: a file is passed as its list of lines (as
  produced by Python's line iteration, i.e. each line may keep its trailing
  newline).  A missing file is `Option.none` where relevant.
* `list(set(xs))` has unspecified iteration order in CPython; the model uses
  `List.dedup` as one canonical order.  All theorems about the deduplicated
  segment only use order-insensitive facts (membership, length, nodup).
* Fatal Python exceptions (`KeyError` from a dict lookup, `IndexError` from
  `[0]` on an empty list) are modelled as `Option.none` results.
-/

namespace Jtplot

/-- The value types that occur in the rc-parameter dictionaries of
`jtplot.py`: numbers, strings, booleans, a numeric pair (figure size) and a
list of strings (font family fallbacks). -/
inductive Value where
  | num (q : ℚ)
  | str (s : String)
  | boolean (b : Bool)
  | pair (x y : ℚ)
  | strList (l : List String)
deriving DecidableEq

/-- A Python `dict` keyed by strings, as an insertion-ordered association
list with unique keys. -/
abbrev Dict := List (String × Value)

/-- `d[k]` lookup: first (only) entry with key `k`. -/
def dictFind (d : Dict) (k : String) : Option Value :=
  (d.find? fun p => p.1 == k).map Prod.snd

/-- `d[k] = v` on a Python dict: replace the value in place if the key is
present, otherwise append the new pair. -/
def dictInsert : Dict → String → Value → Dict
  | [], k, v => [(k, v)]
  | (k₀, v₀) :: rest, k, v =>
    if k₀ = k then (k, v) :: rest else (k₀, v₀) :: dictInsert rest k v

/-- `d.update(e)`: insert every pair of `e` in order. -/
def dictUpdate (d : Dict) (e : Dict) : Dict :=
  e.foldl (fun acc p => dictInsert acc p.1 p.2) d

/-- The keys of a dict, in order. -/
def keysOf (d : Dict) : List String := d.map Prod.fst

/-- Left-biased choice on optional values (used to state lookup priority of
merged dicts). -/
def optOr : Option Value → Option Value → Option Value
  | some v, _ => some v
  | none, b => b

/-- `base_style` from jtplot.py (lines 20–32).  Note: this dict is defined at
module level but never merged by `set_context`/`set_style`/`style`. -/
def base_style : Dict :=
  [("axes.axisbelow", .boolean true),
   ("figure.autolayout", .boolean true),
   ("grid.linestyle", .str "-"),
   ("lines.solid_capstyle", .str "round"),
   ("legend.frameon", .boolean false),
   ("legend.numpoints", .num 1),
   ("legend.scatterpoints", .num 1),
   ("font.family", .str "sans-serif"),
   ("font.sans-serif", .strList ["Helvetica", "Arial", "Bitstream Vera Sans", "sans-serif"])]

/-- `base_context` from jtplot.py (lines 35–51): all values numeric. -/
def base_context : List (String × ℚ) :=
  [("axes.linewidth", 1.4),
   ("grid.linewidth", 1.4),
   ("lines.linewidth", 1.5),
   ("patch.linewidth", 0.2),
   ("lines.markersize", 7),
   ("lines.markeredgewidth", 0),
   ("xtick.major.width", 1),
   ("ytick.major.width", 1),
   ("xtick.minor.width", 0.5),
   ("ytick.minor.width", 0.5),
   ("xtick.major.pad", 7),
   ("ytick.major.pad", 7),
   ("xtick.major.size", 0),
   ("ytick.major.size", 0),
   ("xtick.minor.size", 0),
   ("ytick.minor.size", 0)]

/-- `base_font` from jtplot.py (lines 54–60). -/
def base_font : List (String × ℚ) :=
  [("font.size", 11),
   ("axes.labelsize", 12),
   ("axes.titlesize", 12),
   ("xtick.labelsize", 10.5),
   ("ytick.labelsize", 10.5),
   ("legend.fontsize", 10.5)]

/-- The fixed scaling table `dict(paper=.8, notebook=1, talk=1.3, poster=1.6)`
of `set_context` (line 170). -/
def context_scaling : List (String × ℚ) :=
  [("paper", 0.8), ("notebook", 1), ("talk", 1.3), ("poster", 1.6)]

/-- `dict(...)[context]`: `none` models the fatal `KeyError` for an unknown
context name. -/
def scaling_of (c : String) : Option ℚ :=
  (context_scaling.find? fun p => p.1 == c).map Prod.snd

/-- The comprehension `{k: v * scaling for k, v in base_context.items()}`. -/
def context_dict_scaled (scaling : ℚ) : Dict :=
  base_context.map fun kv => (kv.1, Value.num (kv.2 * scaling))

/-- The comprehension `{k: v * fscale for k, v in base_font.items()}`. -/
def font_dict_scaled (fscale : ℚ) : Dict :=
  base_font.map fun kv => (kv.1, Value.num (kv.2 * fscale))

/-- `set_context(context, fscale)` (lines 162–180).  Returns `none` on an
unknown context name (the `KeyError`). -/
def set_context (context : String) (fscale : ℚ) : Option Dict :=
  (scaling_of context).map fun scaling =>
    let context_dict := context_dict_scaled scaling
    let context_dict :=
      dictInsert context_dict "figure.figsize" (.pair (5.5 * scaling) (4.5 * scaling))
    dictUpdate context_dict (font_dict_scaled fscale)

/-- The five-slot color map returned by `get_default_jtstyle` (lines 228–232),
with its fields in the dict's insertion order. -/
structure StyleMap where
  axisFace : String
  figureFace : String
  textColor : String
  edgeColor : String
  gridColor : String
deriving DecidableEq

/-- `get_color_list()` (lines 236–238). -/
def get_color_list : List String :=
  ["#3572C6", "#83a83b", "#c44e52", "#8172b2", "#ff914d", "#77BEDB", "#222222", "#4168B7",
   "#27ae60", "#e74c3c", "#8E44AD", "#ff711a", "#3498db", "#6C7A89"]

/-- `get_default_jtstyle()` (lines 227–233). -/
def get_default_jtstyle : StyleMap × List String :=
  ({ axisFace := "white", figureFace := "white", textColor := ".15",
     edgeColor := ".8", gridColor := ".8" }, get_color_list)

/-- The initial `syntaxVars` list of `get_theme_style` (line 208). -/
def syntaxVars0 : List String :=
  ["@cm-atom", "@cm-number", "@cm-property", "@cm-attribute", "@cm-keyword", "@cm-string", "@cm-meta"]

/-- Is `pat` a prefix of the second list? -/
def isPrefixChars : List Char → List Char → Bool
  | [], _ => true
  | _ :: _, [] => false
  | a :: as, b :: bs => a = b && isPrefixChars as bs

/-- Substring containment on character lists (Python `pat in s`). -/
def containsChars (pat : List Char) : List Char → Bool
  | [] => isPrefixChars pat []
  | l@(_ :: rest) => isPrefixChars pat l || containsChars pat rest

/-- Python's `pat in s` substring test. -/
def strContains (s pat : String) : Bool :=
  containsChars pat.toList s.toList

/-- The whitespace characters stripped by Python's `str.strip()`. -/
def isSpaceChar (c : Char) : Bool :=
  c = ' ' || c = '\t' || c = '\n' || c = '\x0d' || c = '\x0b' || c = '\x0c'

/-- Drop leading whitespace. -/
def dropLeadingSpace : List Char → List Char
  | [] => []
  | c :: rest => if isSpaceChar c then dropLeadingSpace rest else c :: rest

/-- Python's `line.strip()`: remove leading and trailing whitespace. -/
def pyStrip (s : String) : String :=
  ⟨(dropLeadingSpace ((dropLeadingSpace s.toList).reverse)).reverse⟩

/-- Python's `s.split(sep)` for a one-character separator: split at every
occurrence, keeping empty pieces; the result is never empty. -/
def splitChars (sep : Char) : List Char → List (List Char)
  | [] => [[]]
  | c :: rest =>
    let r := splitChars sep rest
    if c = sep then [] :: r
    else
      match r with
      | [] => [[c]]
      | h :: t => (c :: h) :: t

/-- Python's `s[-n:]`: the last `n` characters (all of them if shorter). -/
def lastNChars (n : Nat) (l : List Char) : List Char :=
  (l.reverse.take n).reverse

/-- `get_hex_code = lambda line: line.split(':')[-1].split(';')[0][-7:]`
(line 209).  `split` never returns an empty list, so `getLastD`/`headD`
with a dummy default are the total forms of Python's `[-1]`/`[0]` here. -/
def get_hex_code (line : String) : String :=
  ⟨lastNChars 7 ((splitChars ';' ((splitChars ':' line.toList).getLastD [])).headD [])⟩

/-- Replace the first element equal to `c` (Python's
`lst[lst.index(c)] = v`, with no effect if `c` is absent — in the source the
index call is only reached for a present `c`). -/
def replaceFirst : List String → String → String → List String
  | [], _, _ => []
  | x :: xs, c, v => if x = c then v :: xs else x :: replaceFirst xs c v

/-- One line of the `for k, v in styleMap.items()` scan (lines 214–216): each
key whose name occurs in the stripped line gets the line's hex code.  The
keys are checked in the dict's insertion order; they are fixed strings, so
the field updates are independent. -/
def scanStyleLine (line : String) (m : StyleMap) : StyleMap :=
  let h := get_hex_code line
  let t := pyStrip line
  let m := if strContains t "axisFace" then { m with axisFace := h } else m
  let m := if strContains t "figureFace" then { m with figureFace := h } else m
  let m := if strContains t "textColor" then { m with textColor := h } else m
  let m := if strContains t "edgeColor" then { m with edgeColor := h } else m
  if strContains t "gridColor" then { m with gridColor := h } else m

/-- One loop iteration of the `for c in syntaxVars` scan (lines 217–219):
read the current list's element at position `i` and, when the stripped line
contains it, assign the line's hex code through
`syntaxVars[syntaxVars.index(c)]` (the first position holding `c`). -/
def synStep (line : String) (vs : List String) (i : Nat) : List String :=
  let c := vs.getD i ""
  if strContains (pyStrip line) c then replaceFirst vs c (get_hex_code line) else vs

/-- One line of the `for c in syntaxVars` scan (lines 217–219).  Python
iterates the live list by index while assigning elements in place; the
list's length never changes, so the loop visits indices `0 .. length-1`
reading the current list. -/
def scanSyntaxLine (line : String) (vars : List String) : List String :=
  (List.range vars.length).foldl (synStep line) vars

/-- Processing of one theme-file line: the styleMap loop runs first, then the
syntaxVars loop; the two touch disjoint state. -/
def scanLine (p : StyleMap × List String) (line : String) : StyleMap × List String :=
  (scanStyleLine line p.1, scanSyntaxLine line p.2)

/-- `get_theme_style(theme)` (lines 194–224).  The theme file's lines are an
explicit argument (the source reads `<styles_dir>/<theme>.less`); they are
ignored for the `default` theme, which returns before opening any file.
`List.dedup` models `list(set(syntaxVars))` up to CPython's unspecified set
order. -/
def get_theme_style (theme : String) (fileLines : List String) : StyleMap × List String :=
  let (styleMap, clist) := get_default_jtstyle
  if theme = "default" then (styleMap, clist)
  else
    let p := fileLines.foldl scanLine (styleMap, syntaxVars0)
    (p.1, clist ++ p.2.dedup)

/-- The four-entry tick-size override of `set_style` (lines 141–145). -/
def ticks_dict : Dict :=
  [("xtick.major.size", .num 6),
   ("ytick.major.size", .num 6),
   ("xtick.minor.size", .num 3),
   ("ytick.minor.size", .num 3)]

/-- The `style_dict` built by `set_style` (lines 123–137), after the
`spines` edge-color substitution (lines 120–121). -/
def style_dict_of (m : StyleMap) (grid spines : Bool) : Dict :=
  let edgeColor := if spines then m.edgeColor else m.gridColor
  [("figure.edgecolor", .str m.figureFace),
   ("figure.facecolor", .str m.figureFace),
   ("axes.facecolor", .str m.axisFace),
   ("axes.edgecolor", .str edgeColor),
   ("axes.labelcolor", .str m.textColor),
   ("axes.grid", .boolean grid),
   ("grid.color", .str m.gridColor),
   ("text.color", .str m.textColor),
   ("xtick.color", .str m.textColor),
   ("ytick.color", .str m.textColor),
   ("patch.edgecolor", .str m.axisFace),
   ("patch.facecolor", .str m.gridColor),
   ("savefig.facecolor", .str m.figureFace),
   ("savefig.edgecolor", .str m.figureFace)]

/-- `set_style` (lines 99–151) restricted to its mapping computation: the
tick override happens first (line 141), then `style_dict` is merged
(line 148); the resulting `rcdict` is what is pushed into `mpl.rcParams`. -/
def set_style (rcdict : Dict) (styleMap : StyleMap) (grid ticks spines : Bool) : Dict :=
  let rcdict := if ticks then dictUpdate rcdict ticks_dict else rcdict
  dictUpdate rcdict (style_dict_of styleMap grid spines)

/-- `style(theme, context, grid, ticks, spines, fscale)` (lines 75–95),
with the theme name already resolved (`theme=None` goes through
`infer_theme` first) and the theme file passed explicitly.  The result is
the final configuration mapping written into the global rc state; `none`
models the `KeyError` of an unknown context. -/
def style (theme : String) (fileLines : List String) (context : String)
    (grid ticks spines : Bool) (fscale : ℚ) : Option Dict :=
  (set_context context fscale).map fun rcdict =>
    set_style rcdict (get_theme_style theme fileLines).1 grid ticks spines

/-- `infer_theme()` (lines 62–72).  The argument is the marker file:
`none` when the file does not exist, `some lines` for `f.readlines()` of an
existing file.  The result `none` models the `IndexError` raised by
`readlines()[0]` when an existing marker file is empty. -/
def infer_theme (markerFile : Option (List String)) : Option String :=
  match markerFile with
  | some lines => lines.head?
  | none => some "default"

/-- The literal color triples restored by `reset()` (lines 244–245). -/
def reset_colors : List (ℚ × ℚ × ℚ) :=
  [(0, 0, 1), (0, 0.5, 0), (1, 0, 0), (0.75, 0.75, 0),
   (0.75, 0.75, 0), (0, 0.75, 0.75), (0, 0, 0)]

/-- The short-code-to-color mapping installed by `reset()`:
`zip("bgrmyck", colors)` (line 246). -/
def reset_code_map : List (Char × (ℚ × ℚ × ℚ)) :=
  List.zip "bgrmyck".toList reset_colors

/-- Lookup of a short code in the restored mapping. -/
def reset_lookup (code : Char) : Option (ℚ × ℚ × ℚ) :=
  (reset_code_map.find? fun p => p.1 == code).map Prod.snd

/-- Hexadecimal digit. -/
def isHexDigitChar (c : Char) : Bool :=
  ('0' ≤ c && c ≤ '9') || ('a' ≤ c && c ≤ 'f') || ('A' ≤ c && c ≤ 'F')

/-- A well-formed `#RRGGBB` color literal: `#` followed by six hex digits. -/
def isValidHex (s : String) : Bool :=
  match s.toList with
  | '#' :: rest => rest.length == 6 && rest.all isHexDigitChar
  | _ => false

/-- The five color-slot key substrings scanned by `get_theme_style`, in the
styleMap dict's insertion order. -/
def slotKeys : List String :=
  ["axisFace", "figureFace", "textColor", "edgeColor", "gridColor"]

/-- All twelve recognizable markers: the five slot keys and the seven
syntax-color placeholders. -/
def allMarkers : List String := slotKeys ++ syntaxVars0

/-- The stripped `line` contains the marker `pat` and no other of the twelve
recognizable markers (the well-formedness condition satisfied by a theme
file that defines each marker on its own line). -/
def matchesOnly (line pat : String) : Prop :=
  ∀ q ∈ allMarkers, strContains (pyStrip line) q = (q == pat)

instance (line pat : String) : Decidable (matchesOnly line pat) :=
  inferInstanceAs (Decidable (∀ q ∈ allMarkers, strContains (pyStrip line) q = (q == pat)))

end Jtplot

namespace Jtplot

/-! ## Association-list (Python dict) lemmas -/

@[simp] theorem optOr_some (v : Value) (b : Option Value) : optOr (some v) b = some v := rfl

@[simp] theorem optOr_none (b : Option Value) : optOr none b = b := rfl

@[simp] theorem dictFind_nil (k : String) : dictFind [] k = none := rfl

theorem dictFind_cons (k₀ : String) (v₀ : Value) (d : Dict) (k : String) :
    dictFind ((k₀, v₀) :: d) k = if k₀ = k then some v₀ else dictFind d k := by
  by_cases h : k₀ = k
  · simp [dictFind, List.find?_cons_of_pos, h]
  · rw [if_neg h]
    unfold dictFind
    rw [List.find?_cons_of_neg]
    simpa using h

theorem dictFind_insert (d : Dict) (k : String) (v : Value) (k' : String) :
    dictFind (dictInsert d k v) k' = if k = k' then some v else dictFind d k' := by
  induction d with
  | nil => simp [dictInsert, dictFind_cons]
  | cons p rest ih =>
    obtain ⟨k₀, v₀⟩ := p
    by_cases h : k₀ = k
    · subst h
      rw [show dictInsert ((k₀, v₀) :: rest) k₀ v = (k₀, v) :: rest from by
        simp [dictInsert]]
      rw [dictFind_cons, dictFind_cons]
      by_cases hk : k₀ = k'
      · simp [hk]
      · simp [hk]
    · rw [show dictInsert ((k₀, v₀) :: rest) k v = (k₀, v₀) :: dictInsert rest k v from by
        simp [dictInsert, h]]
      rw [dictFind_cons, dictFind_cons, ih]
      by_cases hk : k₀ = k'
      · subst hk
        have h' : ¬k = k₀ := fun hh => h hh.symm
        simp [h']
      · simp [hk]

theorem dictFind_not_mem {d : Dict} {k : String} (h : k ∉ keysOf d) : dictFind d k = none := by
  induction d with
  | nil => rfl
  | cons p rest ih =>
    obtain ⟨k₀, v₀⟩ := p
    simp only [keysOf, List.map_cons, List.mem_cons, not_or] at h
    rw [dictFind_cons, if_neg (fun hh => h.1 hh.symm)]
    exact ih (by simpa [keysOf] using h.2)

theorem dictUpdate_cons (d : Dict) (k₀ : String) (v₀ : Value) (e : Dict) :
    dictUpdate d ((k₀, v₀) :: e) = dictUpdate (dictInsert d k₀ v₀) e := rfl

/-- Pointwise behavior of `dict.update`: when the update dict has unique
keys, lookup in the merged dict prefers the update's value. -/
theorem dictFind_update (e : Dict) (d : Dict) (k : String) (he : (keysOf e).Nodup) :
    dictFind (dictUpdate d e) k = optOr (dictFind e k) (dictFind d k) := by
  induction e generalizing d with
  | nil => simp [dictUpdate]
  | cons p e ih =>
    obtain ⟨k₀, v₀⟩ := p
    have hpair : k₀ ∉ List.map Prod.fst e ∧ (List.map Prod.fst e).Nodup := by
      have h3 : (k₀ :: List.map Prod.fst e).Nodup := by simpa [keysOf] using he
      exact List.nodup_cons.mp h3
    have hk₀ : k₀ ∉ keysOf e := hpair.1
    have he' : (keysOf e).Nodup := hpair.2
    rw [dictUpdate_cons, ih _ he', dictFind_insert, dictFind_cons]
    by_cases h : k₀ = k
    · subst h
      rw [dictFind_not_mem hk₀, if_pos rfl]
      simp
    · rw [if_neg h, if_neg h]

/-- Looking up the key of an entry of `l` in the dict obtained by mapping `g`
over the values of `l` returns that entry's mapped value (keys unique). -/
theorem dictFind_map_mem (g : ℚ → Value) :
    ∀ (l : List (String × ℚ)), (l.map Prod.fst).Nodup →
      ∀ kv ∈ l, dictFind (l.map fun p => (p.1, g p.2)) kv.1 = some (g kv.2) := by
  intro l
  induction l with
  | nil => intro _ kv hkv; cases hkv
  | cons p rest ih =>
    intro hnd kv hkv
    have h3 : (p.1 :: List.map Prod.fst rest).Nodup := by
      rw [List.map_cons] at hnd; exact hnd
    have hnd' := List.nodup_cons.mp h3
    rw [List.map_cons, dictFind_cons]
    rcases List.mem_cons.mp hkv with rfl | htail
    · rw [if_pos rfl]
    · have hne : p.1 ≠ kv.1 := by
        have h2 : kv.1 ∈ rest.map Prod.fst := List.mem_map_of_mem _ htail
        exact fun hh => hnd'.1 (hh ▸ h2)
      rw [if_neg hne]
      exact ih hnd'.2 kv htail

theorem keysOf_font_dict (f : ℚ) : keysOf (font_dict_scaled f) =
    ["font.size", "axes.labelsize", "axes.titlesize",
     "xtick.labelsize", "ytick.labelsize", "legend.fontsize"] := by
  simp [keysOf, font_dict_scaled, base_font]

/-! ## Claims -/

/-- C3: for every context in the fixed table, `set_context(c, 1.0)` yields a
mapping in which every base-context entry equals the base value multiplied by
that context's constant (the constants being pinned by `scaling_of`:
paper 0.8, notebook 1, talk 1.3, poster 1.6), and the figure-size entry is
`(5.5*scale, 4.5*scale)`. -/
theorem set_context_scales_base (c : String) (s : ℚ) (hc : scaling_of c = some s) :
    ∃ d, set_context c 1 = some d ∧
      (∀ kv ∈ base_context, dictFind d kv.1 = some (.num (kv.2 * s))) ∧
      dictFind d "figure.figsize" = some (.pair (5.5 * s) (4.5 * s)) := by
  refine ⟨_, by rw [set_context, hc]; rfl, ?_, ?_⟩
  · intro kv hkv
    have hk1 : kv.1 ∈ base_context.map Prod.fst := List.mem_map_of_mem _ hkv
    have hfont : kv.1 ∉ keysOf (font_dict_scaled 1) := by
      rw [keysOf_font_dict]
      exact (by decide :
        ∀ x ∈ base_context.map Prod.fst,
          x ∉ (["font.size", "axes.labelsize", "axes.titlesize",
                "xtick.labelsize", "ytick.labelsize", "legend.fontsize"] : List String)) _ hk1
    have hfig : kv.1 ≠ "figure.figsize" :=
      (by decide : ∀ x ∈ base_context.map Prod.fst, x ≠ "figure.figsize") _ hk1
    rw [dictFind_update _ _ _ (by rw [keysOf_font_dict]; decide),
        dictFind_not_mem hfont, optOr_none, dictFind_insert,
        if_neg (fun hh => hfig hh.symm)]
    show dictFind (List.map (fun p => (p.1, Value.num (p.2 * s))) base_context) kv.1 =
      some (Value.num (kv.2 * s))
    exact dictFind_map_mem (fun q => Value.num (q * s)) base_context (by decide) kv hkv
  · rw [dictFind_update _ _ _ (by rw [keysOf_font_dict]; decide),
        dictFind_not_mem (by rw [keysOf_font_dict]; decide), optOr_none,
        dictFind_insert, if_pos rfl]

/-- C3 witness: for the paper context, the axes line width is the base value
1.4 scaled by 0.8. -/
theorem set_context_scales_base_witness :
    dictFind ((set_context "paper" 1).getD []) "axes.linewidth" = some (.num (1.4 * 0.8)) := by
  obtain ⟨d, hd, hall, _⟩ := set_context_scales_base "paper" 0.8 rfl
  have h := hall ("axes.linewidth", 1.4) (List.Mem.head _)
  rw [hd, Option.getD_some]
  exact h

/-- C4: for every context in the fixed table and every `fscale`, each
font-derived key of the mapping returned by `set_context(c, fscale)` equals
`base_font[k] * fscale`; the formula does not mention the context scale, so
the result is identical across contexts. -/
theorem set_context_font_scaling (c : String) (f s : ℚ) (hc : scaling_of c = some s) :
    ∃ d, set_context c f = some d ∧
      ∀ kv ∈ base_font, dictFind d kv.1 = some (.num (kv.2 * f)) := by
  refine ⟨_, by rw [set_context, hc]; rfl, ?_⟩
  intro kv hkv
  rw [dictFind_update _ _ _ (by rw [keysOf_font_dict]; decide)]
  have hfont : dictFind (font_dict_scaled f) kv.1 = some (.num (kv.2 * f)) := by
    show dictFind (List.map (fun p => (p.1, Value.num (p.2 * f))) base_font) kv.1 =
      some (Value.num (kv.2 * f))
    exact dictFind_map_mem (fun q => Value.num (q * f)) base_font (by decide) kv hkv
  rw [hfont]
  rfl

/-- C4 witness: in the talk context with `fscale = 2`, the base font size 11
becomes `11 * 2`. -/
theorem set_context_font_scaling_witness :
    dictFind ((set_context "talk" 2).getD []) "font.size" = some (.num (11 * 2)) := by
  obtain ⟨d, hd, hall⟩ := set_context_font_scaling "talk" 2 1.3 rfl
  have h := hall ("font.size", 11) (List.Mem.head _)
  rw [hd, Option.getD_some]
  exact h

/-- C5: `get_theme_style "default"` returns exactly the five built-in slot
colors (white figure/axis faces, near-black `.15` text, light-gray `.8`
edges/grid) and the fixed 14-entry accent list with no duplicates, for every
possible theme-file content — i.e. without reading any theme file. -/
theorem get_theme_style_default_spec :
    (∀ fileLines, get_theme_style "default" fileLines =
      ({ axisFace := "white", figureFace := "white", textColor := ".15",
         edgeColor := ".8", gridColor := ".8" }, get_color_list)) ∧
    get_color_list.length = 14 ∧ get_color_list.Nodup :=
  ⟨fun _ => rfl, rfl, by decide⟩

/-- C6 counterexample: an existing but empty marker file (`some []`) makes
`infer_theme` fail with the `IndexError` of `readlines()[0]` (modelled as
`none`), which is not an I/O error — refuting "an existing marker file never
causes a non-I/O failure". -/
theorem infer_theme_empty_marker_counterexample : infer_theme (some []) = none := rfl

/-- C6 (amended): `infer_theme` returns the marker file's first line verbatim
when the file exists and has at least one line, returns the literal string
`"default"` when the file does not exist, and fails with an index error (not
an I/O error) on an existing empty marker file. -/
theorem infer_theme_amended :
    (∀ (l : String) (ls : List String), infer_theme (some (l :: ls)) = some l) ∧
    infer_theme none = some "default" ∧
    infer_theme (some []) = none :=
  ⟨fun _ _ => rfl, rfl, rfl⟩

/-- C7: for every context name outside {paper, notebook, talk, poster},
`set_context` fails with the fatal `KeyError` of the fixed scaling-table
lookup (modelled as `none`): no mapping is returned and no default is
substituted. -/
theorem set_context_unknown_context (c : String) (fscale : ℚ)
    (hc : c ∉ ["paper", "notebook", "talk", "poster"]) :
    set_context c fscale = none := by
  simp only [List.mem_cons, List.not_mem_nil, or_false, not_or] at hc
  obtain ⟨h1, h2, h3, h4⟩ := hc
  have e1 : (("paper" : String) == c) = false := beq_eq_false_iff_ne.mpr (Ne.symm h1)
  have e2 : (("notebook" : String) == c) = false := beq_eq_false_iff_ne.mpr (Ne.symm h2)
  have e3 : (("talk" : String) == c) = false := beq_eq_false_iff_ne.mpr (Ne.symm h3)
  have e4 : (("poster" : String) == c) = false := beq_eq_false_iff_ne.mpr (Ne.symm h4)
  simp [set_context, scaling_of, context_scaling, List.find?, e1, e2, e3, e4]

/-- C7 witness: the unknown context name "slide" yields no mapping. -/
theorem set_context_unknown_context_witness : set_context "slide" 5 = none :=
  set_context_unknown_context "slide" 5 (by decide)

theorem keysOf_context_dict (s : ℚ) : keysOf (context_dict_scaled s) =
    ["axes.linewidth", "grid.linewidth", "lines.linewidth", "patch.linewidth",
     "lines.markersize", "lines.markeredgewidth", "xtick.major.width", "ytick.major.width",
     "xtick.minor.width", "ytick.minor.width", "xtick.major.pad", "ytick.major.pad",
     "xtick.major.size", "ytick.major.size", "xtick.minor.size", "ytick.minor.size"] := by
  simp [keysOf, context_dict_scaled, base_context]

theorem keysOf_style_dict (m : StyleMap) (g sp : Bool) : keysOf (style_dict_of m g sp) =
    ["figure.edgecolor", "figure.facecolor", "axes.facecolor", "axes.edgecolor",
     "axes.labelcolor", "axes.grid", "grid.color", "text.color", "xtick.color",
     "ytick.color", "patch.edgecolor", "patch.facecolor", "savefig.facecolor",
     "savefig.edgecolor"] := by
  simp [keysOf, style_dict_of]

theorem isSome_optOr (a b : Option Value) : (optOr a b).isSome = (a.isSome || b.isSome) := by
  cases a <;> rfl

/-- `set_context` on a known context, written out. -/
theorem set_context_eq (c : String) (f s : ℚ) (hs : scaling_of c = some s) :
    set_context c f = some (dictUpdate
      (dictInsert (context_dict_scaled s) "figure.figsize" (.pair (5.5 * s) (4.5 * s)))
      (font_dict_scaled f)) := by
  rw [set_context, hs]; rfl

/-- Pointwise description of the final configuration mapping produced by
`style`: lookup priority is theme-style overrides, then tick overrides (when
`ticks` is set), then scaled base-font, then figure size, then scaled
base-context — i.e. the mapping is built in the reverse merge order with
later stages overriding earlier ones. -/
theorem style_lookup (theme : String) (fl : List String) (c : String) (g t sp : Bool)
    (f s : ℚ) (d : Dict) (hs : scaling_of c = some s)
    (hd : style theme fl c g t sp f = some d) (k : String) :
    dictFind d k =
      optOr (dictFind (style_dict_of (get_theme_style theme fl).1 g sp) k)
        (optOr (if t then dictFind ticks_dict k else none)
          (optOr (dictFind (font_dict_scaled f) k)
            (optOr (if "figure.figsize" = k then some (.pair (5.5 * s) (4.5 * s)) else none)
              (dictFind (context_dict_scaled s) k)))) := by
  rw [style, set_context_eq c f s hs, Option.map_some'] at hd
  have hd' := Option.some.inj hd
  subst hd'
  have hbase : ∀ k', dictFind (dictUpdate
      (dictInsert (context_dict_scaled s) "figure.figsize" (.pair (5.5 * s) (4.5 * s)))
      (font_dict_scaled f)) k' =
      optOr (dictFind (font_dict_scaled f) k')
        (optOr (if "figure.figsize" = k' then some (.pair (5.5 * s) (4.5 * s)) else none)
          (dictFind (context_dict_scaled s) k')) := by
    intro k'
    rw [dictFind_update _ _ _ (by rw [keysOf_font_dict]; decide), dictFind_insert]
    by_cases hk : "figure.figsize" = k'
    · rw [if_pos hk, if_pos hk, optOr_some]
    · rw [if_neg hk, if_neg hk, optOr_none]
  show dictFind (set_style _ _ g t sp) k = _
  rw [set_style]
  rw [dictFind_update _ _ _ (by rw [keysOf_style_dict]; decide)]
  cases t with
  | true =>
    rw [if_pos rfl, if_pos rfl,
        dictFind_update _ _ _ (by decide : (keysOf ticks_dict).Nodup), hbase]
  | false =>
    rw [if_neg Bool.false_ne_true, if_neg Bool.false_ne_true, optOr_none, hbase]

/-- C1 counterexample: the base-style key `figure.autolayout` is absent from
the final configuration mapping even though no later stage carries that key —
`base_style` is never merged by the pipeline, refuting the claimed merge
order "base-style first". -/
theorem style_merge_order_counterexample :
    ("figure.autolayout", Value.boolean true) ∈ base_style ∧
    (style "default" [] "notebook" true false true 1).isSome = true ∧
    dictFind ((style "default" [] "notebook" true false true 1).getD []) "figure.autolayout" = none ∧
    "figure.autolayout" ∉ keysOf (context_dict_scaled 1) ∧
    "figure.autolayout" ∉ keysOf (font_dict_scaled 1) ∧
    "figure.autolayout" ∉ keysOf ticks_dict ∧
    "figure.autolayout" ∉ keysOf (style_dict_of (get_theme_style "default" []).1 true true) ∧
    "figure.autolayout" ≠ "figure.figsize" := by
  refine ⟨List.Mem.tail _ (List.Mem.head _), rfl, rfl, ?_, ?_, by decide, ?_, by decide⟩
  · rw [keysOf_context_dict]; decide
  · rw [keysOf_font_dict]; decide
  · rw [keysOf_style_dict]; decide

/-- C1 (amended): the final configuration mapping is built in the merge order
base-context (scaled, plus figure size), then base-font (scaled), then tick
overrides (when `ticks` is set), then theme-style overrides, with later
stages overriding earlier ones on key collision (stated pointwise as lookup
priority); every base-context key appears in the final mapping; `base_style`
is never merged — every base-style key is absent from the final mapping. -/
theorem style_merge_order_amended (theme : String) (fl : List String) (c : String)
    (g t sp : Bool) (f s : ℚ) (d : Dict)
    (hs : scaling_of c = some s) (hd : style theme fl c g t sp f = some d) :
    (∀ k, dictFind d k =
      optOr (dictFind (style_dict_of (get_theme_style theme fl).1 g sp) k)
        (optOr (if t then dictFind ticks_dict k else none)
          (optOr (dictFind (font_dict_scaled f) k)
            (optOr (if "figure.figsize" = k then some (.pair (5.5 * s) (4.5 * s)) else none)
              (dictFind (context_dict_scaled s) k))))) ∧
    (∀ kv ∈ base_context, (dictFind d kv.1).isSome = true) ∧
    (∀ kv ∈ base_style, dictFind d kv.1 = none) := by
  refine ⟨style_lookup theme fl c g t sp f s d hs hd, ?_, ?_⟩
  · intro kv hkv
    rw [style_lookup theme fl c g t sp f s d hs hd kv.1]
    have hctx : dictFind (context_dict_scaled s) kv.1 = some (.num (kv.2 * s)) := by
      show dictFind (List.map (fun p => (p.1, Value.num (p.2 * s))) base_context) kv.1 =
        some (Value.num (kv.2 * s))
      exact dictFind_map_mem (fun q => Value.num (q * s)) base_context (by decide) kv hkv
    simp [isSome_optOr, hctx]
  · intro kv hkv
    have hk1 : kv.1 ∈ base_style.map Prod.fst := List.mem_map_of_mem _ hkv
    rw [style_lookup theme fl c g t sp f s d hs hd kv.1]
    have h1 : dictFind (style_dict_of (get_theme_style theme fl).1 g sp) kv.1 = none := by
      refine dictFind_not_mem ?_
      rw [keysOf_style_dict]
      exact (by decide : ∀ x ∈ base_style.map Prod.fst,
        x ∉ (["figure.edgecolor", "figure.facecolor", "axes.facecolor", "axes.edgecolor",
              "axes.labelcolor", "axes.grid", "grid.color", "text.color", "xtick.color",
              "ytick.color", "patch.edgecolor", "patch.facecolor", "savefig.facecolor",
              "savefig.edgecolor"] : List String)) _ hk1
    have h2 : (if t then dictFind ticks_dict kv.1 else none) = none := by
      cases t with
      | true =>
        rw [if_pos rfl]
        refine dictFind_not_mem ?_
        exact (by decide : ∀ x ∈ base_style.map Prod.fst, x ∉ keysOf ticks_dict) _ hk1
      | false => rw [if_neg Bool.false_ne_true]
    have h3 : dictFind (font_dict_scaled f) kv.1 = none := by
      refine dictFind_not_mem ?_
      rw [keysOf_font_dict]
      exact (by decide : ∀ x ∈ base_style.map Prod.fst,
        x ∉ (["font.size", "axes.labelsize", "axes.titlesize",
              "xtick.labelsize", "ytick.labelsize", "legend.fontsize"] : List String)) _ hk1
    have h4 : (if "figure.figsize" = kv.1 then
        some (Value.pair (5.5 * s) (4.5 * s)) else none) = none := by
      refine if_neg ?_
      have := (by decide : ∀ x ∈ base_style.map Prod.fst, x ≠ "figure.figsize") _ hk1
      exact fun hh => this hh.symm
    have h5 : dictFind (context_dict_scaled s) kv.1 = none := by
      refine dictFind_not_mem ?_
      rw [keysOf_context_dict]
      exact (by decide : ∀ x ∈ base_style.map Prod.fst,
        x ∉ (["axes.linewidth", "grid.linewidth", "lines.linewidth", "patch.linewidth",
              "lines.markersize", "lines.markeredgewidth", "xtick.major.width",
              "ytick.major.width", "xtick.minor.width", "ytick.minor.width",
              "xtick.major.pad", "ytick.major.pad", "xtick.major.size", "ytick.major.size",
              "xtick.minor.size", "ytick.minor.size"] : List String)) _ hk1
    rw [h1, h2, h3, h4, h5]
    rfl

/-- C1 witness (for the amended claim): in a concrete invocation, the
base-context key `axes.linewidth` is present in the final mapping. -/
theorem style_merge_order_amended_witness :
    (dictFind ((style "default" [] "notebook" true false true 1).getD []) "axes.linewidth").isSome
      = true :=
  (style_merge_order_amended "default" [] "notebook" true false true 1 1 _ rfl rfl).2.1
    ("axes.linewidth", 1.4) (List.Mem.head _)

/-- C8: for every invocation of `style` with the default theme on a valid
context, `ticks = true` gives major tick sizes 6 and minor tick sizes 3 for
both axes, and `ticks = false` gives all four tick sizes 0 (the scaled
base-context zeros). -/
theorem style_default_tick_sizes (c : String) (s f : ℚ) (g sp : Bool) (dT dF : Dict)
    (hs : scaling_of c = some s)
    (hT : style "default" [] c g true sp f = some dT)
    (hF : style "default" [] c g false sp f = some dF) :
    (dictFind dT "xtick.major.size" = some (.num 6) ∧
     dictFind dT "ytick.major.size" = some (.num 6) ∧
     dictFind dT "xtick.minor.size" = some (.num 3) ∧
     dictFind dT "ytick.minor.size" = some (.num 3)) ∧
    (dictFind dF "xtick.major.size" = some (.num 0) ∧
     dictFind dF "ytick.major.size" = some (.num 0) ∧
     dictFind dF "xtick.minor.size" = some (.num 0) ∧
     dictFind dF "ytick.minor.size" = some (.num 0)) := by
  have HT := style_lookup "default" [] c g true sp f s dT hs hT
  have HF := style_lookup "default" [] c g false sp f s dF hs hF
  refine ⟨⟨?_, ?_, ?_, ?_⟩, ?_, ?_, ?_, ?_⟩
  · rw [HT "xtick.major.size"]
    simp [style_dict_of, ticks_dict, dictFind_cons]
  · rw [HT "ytick.major.size"]
    simp [style_dict_of, ticks_dict, dictFind_cons]
  · rw [HT "xtick.minor.size"]
    simp [style_dict_of, ticks_dict, dictFind_cons]
  · rw [HT "ytick.minor.size"]
    simp [style_dict_of, ticks_dict, dictFind_cons]
  · rw [HF "xtick.major.size"]
    simp [style_dict_of, ticks_dict, font_dict_scaled, base_font,
          context_dict_scaled, base_context, dictFind_cons, zero_mul]
  · rw [HF "ytick.major.size"]
    simp [style_dict_of, ticks_dict, font_dict_scaled, base_font,
          context_dict_scaled, base_context, dictFind_cons, zero_mul]
  · rw [HF "xtick.minor.size"]
    simp [style_dict_of, ticks_dict, font_dict_scaled, base_font,
          context_dict_scaled, base_context, dictFind_cons, zero_mul]
  · rw [HF "ytick.minor.size"]
    simp [style_dict_of, ticks_dict, font_dict_scaled, base_font,
          context_dict_scaled, base_context, dictFind_cons, zero_mul]

/-- C8 witness: concrete invocations with ticks on/off. -/
theorem style_default_tick_sizes_witness :
    dictFind ((style "default" [] "notebook" true true true 1).getD []) "xtick.major.size"
      = some (.num 6) ∧
    dictFind ((style "default" [] "notebook" true false true 1).getD []) "xtick.major.size"
      = some (.num 0) := by
  have h := style_default_tick_sizes "notebook" 1 1 true true _ _ rfl rfl rfl
  exact ⟨h.1.1, h.2.1⟩

/-- C10: after `reset()`, the legacy short codes 'm' and 'y' are both mapped
to the same triple (0.75, 0.75, 0); hence the seven restored colors contain a
duplicate, and 'm' is not magenta (matplotlib's classic magenta for 'm' is
(0.75, 0, 0.75)). -/
theorem reset_m_y_same_color :
    reset_lookup 'm' = some (0.75, 0.75, 0) ∧
    reset_lookup 'y' = some (0.75, 0.75, 0) ∧
    ¬reset_colors.Nodup ∧
    ((0.75, 0.75, 0) : ℚ × ℚ × ℚ) ≠ (0.75, 0, 0.75) := by
  refine ⟨rfl, rfl, ?_, ?_⟩
  · intro h
    simp [reset_colors, List.nodup_cons] at h
  · intro h
    rw [Prod.ext_iff, Prod.ext_iff] at h
    exact absurd h.2.1 (by norm_num)

/-! ## Theme-file scanning -/

theorem mem_replaceFirst {a c v : String} (hne : a ≠ c) :
    ∀ {vars : List String}, a ∈ vars → a ∈ replaceFirst vars c v := by
  intro vars
  induction vars with
  | nil => intro h; cases h
  | cons x xs ih =>
    intro h
    rw [replaceFirst]
    by_cases hx : x = c
    · rw [if_pos hx]
      rcases List.mem_cons.mp h with rfl | htail
      · exact absurd hx hne
      · exact List.mem_cons_of_mem _ htail
    · rw [if_neg hx]
      rcases List.mem_cons.mp h with rfl | htail
      · exact List.mem_cons_self _ _
      · exact List.mem_cons_of_mem _ (ih htail)

/-- A marker that the stripped line does not contain survives one loop
iteration of the syntax-variable scan. -/
theorem mem_synStep {line a : String} (hline : strContains (pyStrip line) a = false)
    (vs : List String) (i : Nat) (h : a ∈ vs) : a ∈ synStep line vs i := by
  simp only [synStep]
  by_cases hca : vs.getD i "" = a
  · rw [hca, hline]
    simpa using h
  · split
    · exact mem_replaceFirst (fun hh => hca hh.symm) h
    · exact h

/-- A marker that the stripped line does not contain survives the whole
per-line syntax-variable scan. -/
theorem mem_scanSyntaxLine {line a : String} (hline : strContains (pyStrip line) a = false)
    (vars : List String) (h : a ∈ vars) : a ∈ scanSyntaxLine line vars := by
  rw [scanSyntaxLine]
  generalize List.range vars.length = is
  suffices H : ∀ (js : List Nat) (vs : List String), a ∈ vs →
      a ∈ js.foldl (synStep line) vs by
    exact H is vars h
  intro js
  induction js with
  | nil => intro vs h'; simpa using h'
  | cons i js ih =>
    intro vs h'
    rw [List.foldl_cons]
    exact ih _ (mem_synStep hline vs i h')

/-- C9: for a non-default theme whose file never mentions a given syntax
marker on any (stripped) line, the returned color list contains the literal
marker string itself — the unreplaced placeholder is appended to the accent
list as if it were a color. -/
theorem get_theme_style_keeps_unmatched_marker (theme : String) (lines : List String)
    (m : String) (hθ : theme ≠ "default") (hm : m ∈ syntaxVars0)
    (hline : ∀ line ∈ lines, strContains (pyStrip line) m = false) :
    m ∈ (get_theme_style theme lines).2 := by
  simp only [get_theme_style, get_default_jtstyle, if_neg hθ]
  refine List.mem_append_right _ (List.mem_dedup.mpr ?_)
  suffices H : ∀ (ls : List String) (p : StyleMap × List String),
      (∀ line ∈ ls, strContains (pyStrip line) m = false) → m ∈ p.2 →
      m ∈ (ls.foldl scanLine p).2 by
    exact H lines _ hline hm
  intro ls
  induction ls with
  | nil => intro p _ hp; simpa using hp
  | cons l ls ih =>
    intro p hls hp
    rw [List.foldl_cons]
    refine ih _ (fun x hx => hls x (List.mem_cons_of_mem _ hx)) ?_
    exact mem_scanSyntaxLine (hls l (List.mem_cons_self _ _)) _ hp

/-- C9 witness: a theme file consisting of one grid-color line never mentions
`@cm-atom`, and the literal string `@cm-atom` ends up in the color list. -/
theorem get_theme_style_keeps_unmatched_marker_witness :
    "@cm-atom" ∈ (get_theme_style "monokai" ["gridColor: #2a2b2e;"]).2 :=
  get_theme_style_keeps_unmatched_marker "monokai" ["gridColor: #2a2b2e;"] "@cm-atom"
    (by decide) (by decide) (by decide)

/-! ## Scanning a well-formed theme file -/

theorem foldl_fixed {α : Type} {β : Type} (f : α → β → α) (x : α) :
    ∀ is : List β, (∀ i ∈ is, f x i = x) → is.foldl f x = x := by
  intro is
  induction is with
  | nil => intro _; rfl
  | cons i is ih =>
    intro h
    rw [List.foldl_cons, h i (List.mem_cons_self _ _)]
    exact ih fun j hj => h j (List.mem_cons_of_mem _ hj)

theorem getD_mem_of_lt {l : List String} {i : Nat} (h : i < l.length) :
    l.getD i "" ∈ l := by
  rw [List.getD_eq_getElem l "" h]
  exact List.getElem_mem h

/-- A loop iteration whose current element is not contained in the stripped
line leaves the variable list unchanged. -/
theorem synStep_skip {line : String} {vs : List String} {i : Nat}
    (h : strContains (pyStrip line) (vs.getD i "") = false) : synStep line vs i = vs := by
  simp only [synStep]
  rw [h]
  simp

/-- A line containing none of the current syntax variables leaves the
variable list unchanged. -/
theorem scanSyntaxLine_id {line : String} {vars : List String}
    (hall : ∀ c ∈ vars, strContains (pyStrip line) c = false) :
    scanSyntaxLine line vars = vars := by
  rw [scanSyntaxLine]
  refine foldl_fixed _ _ _ fun i hi => ?_
  exact synStep_skip (hall _ (getD_mem_of_lt (List.mem_range.mp hi)))

/-- A line containing none of the five slot keys leaves the style map
unchanged. -/
theorem scanStyleLine_id {line : String} {m : StyleMap}
    (hall : ∀ k ∈ slotKeys, strContains (pyStrip line) k = false) :
    scanStyleLine line m = m := by
  have h1 := hall "axisFace" (by decide)
  have h2 := hall "figureFace" (by decide)
  have h3 := hall "textColor" (by decide)
  have h4 := hall "edgeColor" (by decide)
  have h5 := hall "gridColor" (by decide)
  simp [scanStyleLine, h1, h2, h3, h4, h5]

theorem replaceFirst_append {c : String} (v : String) :
    ∀ (pre : List String), (∀ x ∈ pre, x ≠ c) →
      ∀ post, replaceFirst (pre ++ c :: post) c v = pre ++ v :: post := by
  intro pre
  induction pre with
  | nil =>
    intro _ post
    simp [replaceFirst]
  | cons x xs ih =>
    intro hpre post
    simp only [List.cons_append, replaceFirst, List.append_eq]
    rw [if_neg (hpre x (List.mem_cons_self _ _)),
        ih (fun y hy => hpre y (List.mem_cons_of_mem _ hy)) post]

/-- The central per-line step of the syntax scan: when the stripped line
contains `c`, contains no element of `pre` or `post`, and no element of
`pre` equals `c`, the scan replaces exactly the `c` slot by the line's hex
code. -/
theorem scanSyntaxLine_hit (line : String) (pre post : List String) (c : String)
    (hpre : ∀ x ∈ pre, strContains (pyStrip line) x = false)
    (hpost : ∀ x ∈ post, strContains (pyStrip line) x = false)
    (hc : strContains (pyStrip line) c = true)
    (hprene : ∀ x ∈ pre, x ≠ c) :
    scanSyntaxLine line (pre ++ c :: post) = pre ++ get_hex_code line :: post := by
  rw [scanSyntaxLine]
  have hlen : (pre ++ c :: post).length = pre.length + (post.length + 1) := by
    simp
  rw [hlen, List.range_add, List.foldl_append]
  have hphase1 :
      (List.range pre.length).foldl (synStep line) (pre ++ c :: post) = pre ++ c :: post := by
    refine foldl_fixed _ _ _ fun i hi => ?_
    have hi' : i < pre.length := List.mem_range.mp hi
    refine synStep_skip ?_
    rw [List.getD_append _ _ _ _ hi']
    exact hpre _ (getD_mem_of_lt hi')
  rw [hphase1, List.range_succ_eq_map, List.map_cons, List.foldl_cons]
  have hstep : synStep line (pre ++ c :: post) (pre.length + 0) =
      pre ++ get_hex_code line :: post := by
    simp only [synStep, Nat.add_zero]
    rw [List.getD_append_right _ _ _ _ (Nat.le_refl _), Nat.sub_self, List.getD_cons_zero, hc,
        if_pos rfl]
    exact replaceFirst_append _ pre hprene post
  rw [hstep, List.map_map]
  refine foldl_fixed _ _ _ fun j hj => ?_
  obtain ⟨i, hi, rfl⟩ := List.mem_map.mp hj
  have hi' : i < post.length := List.mem_range.mp hi
  refine synStep_skip ?_
  have harith : ((fun x => pre.length + x) ∘ Nat.succ) i = pre.length + (i + 1) := rfl
  rw [harith, List.getD_append_right _ _ _ _ (by omega),
      show pre.length + (i + 1) - pre.length = i + 1 from by omega, List.getD_cons_succ]
  exact hpost _ (getD_mem_of_lt hi')

/-- The marker recognized by `matchesOnly` is contained in the stripped
line. -/
theorem matchesOnly_pos {line pat : String} (h : matchesOnly line pat)
    (hq : pat ∈ allMarkers) : strContains (pyStrip line) pat = true := by
  rw [h pat hq, beq_self_eq_true]

/-- No other marker is contained in a line recognized by `matchesOnly`. -/
theorem matchesOnly_neg {line pat q : String} (h : matchesOnly line pat)
    (hq : q ∈ allMarkers) (hne : q ≠ pat) : strContains (pyStrip line) q = false := by
  rw [h q hq]
  exact beq_eq_false_iff_ne.mpr hne

/-- A valid `#RRGGBB` value is never one of the seven marker strings. -/
theorem validHex_ne_marker {h : String} (hv : isValidHex h = true) :
    ∀ m ∈ syntaxVars0, h ≠ m := by
  intro m hm heq
  rw [heq] at hv
  fin_cases hm <;> exact absurd hv (by decide)

theorem scanStyleLine_axisFace {line : String} (h : matchesOnly line "axisFace")
    (m : StyleMap) : scanStyleLine line m = { m with axisFace := get_hex_code line } := by
  have e := matchesOnly_pos h (by decide)
  have f1 := matchesOnly_neg h (show "figureFace" ∈ allMarkers from by decide) (by decide)
  have f2 := matchesOnly_neg h (show "textColor" ∈ allMarkers from by decide) (by decide)
  have f3 := matchesOnly_neg h (show "edgeColor" ∈ allMarkers from by decide) (by decide)
  have f4 := matchesOnly_neg h (show "gridColor" ∈ allMarkers from by decide) (by decide)
  simp [scanStyleLine, e, f1, f2, f3, f4]

theorem scanStyleLine_figureFace {line : String} (h : matchesOnly line "figureFace")
    (m : StyleMap) : scanStyleLine line m = { m with figureFace := get_hex_code line } := by
  have e := matchesOnly_pos h (by decide)
  have f1 := matchesOnly_neg h (show "axisFace" ∈ allMarkers from by decide) (by decide)
  have f2 := matchesOnly_neg h (show "textColor" ∈ allMarkers from by decide) (by decide)
  have f3 := matchesOnly_neg h (show "edgeColor" ∈ allMarkers from by decide) (by decide)
  have f4 := matchesOnly_neg h (show "gridColor" ∈ allMarkers from by decide) (by decide)
  simp [scanStyleLine, e, f1, f2, f3, f4]

theorem scanStyleLine_textColor {line : String} (h : matchesOnly line "textColor")
    (m : StyleMap) : scanStyleLine line m = { m with textColor := get_hex_code line } := by
  have e := matchesOnly_pos h (by decide)
  have f1 := matchesOnly_neg h (show "axisFace" ∈ allMarkers from by decide) (by decide)
  have f2 := matchesOnly_neg h (show "figureFace" ∈ allMarkers from by decide) (by decide)
  have f3 := matchesOnly_neg h (show "edgeColor" ∈ allMarkers from by decide) (by decide)
  have f4 := matchesOnly_neg h (show "gridColor" ∈ allMarkers from by decide) (by decide)
  simp [scanStyleLine, e, f1, f2, f3, f4]

theorem scanStyleLine_edgeColor {line : String} (h : matchesOnly line "edgeColor")
    (m : StyleMap) : scanStyleLine line m = { m with edgeColor := get_hex_code line } := by
  have e := matchesOnly_pos h (by decide)
  have f1 := matchesOnly_neg h (show "axisFace" ∈ allMarkers from by decide) (by decide)
  have f2 := matchesOnly_neg h (show "figureFace" ∈ allMarkers from by decide) (by decide)
  have f3 := matchesOnly_neg h (show "textColor" ∈ allMarkers from by decide) (by decide)
  have f4 := matchesOnly_neg h (show "gridColor" ∈ allMarkers from by decide) (by decide)
  simp [scanStyleLine, e, f1, f2, f3, f4]

theorem scanStyleLine_gridColor {line : String} (h : matchesOnly line "gridColor")
    (m : StyleMap) : scanStyleLine line m = { m with gridColor := get_hex_code line } := by
  have e := matchesOnly_pos h (by decide)
  have f1 := matchesOnly_neg h (show "axisFace" ∈ allMarkers from by decide) (by decide)
  have f2 := matchesOnly_neg h (show "figureFace" ∈ allMarkers from by decide) (by decide)
  have f3 := matchesOnly_neg h (show "textColor" ∈ allMarkers from by decide) (by decide)
  have f4 := matchesOnly_neg h (show "edgeColor" ∈ allMarkers from by decide) (by decide)
  simp [scanStyleLine, e, f1, f2, f3, f4]

/-- A slot-key line leaves the syntax-variable list (still holding the seven
markers) unchanged. -/
theorem scanSyntaxLine_id_slot {line p : String} (hp : p ∈ slotKeys)
    (h : matchesOnly line p) : scanSyntaxLine line syntaxVars0 = syntaxVars0 :=
  scanSyntaxLine_id fun c hc => matchesOnly_neg h (List.mem_append_right _ hc)
    ((by decide : ∀ c ∈ syntaxVars0, ∀ p' ∈ slotKeys, c ≠ p') c hc p hp)

/-- A syntax-marker line leaves the style map unchanged. -/
theorem scanStyleLine_id_syn {line p : String} (hp : p ∈ syntaxVars0)
    (h : matchesOnly line p) (m : StyleMap) : scanStyleLine line m = m :=
  scanStyleLine_id fun k hk => matchesOnly_neg h (List.mem_append_left _ hk)
    ((by decide : ∀ k ∈ slotKeys, ∀ p' ∈ syntaxVars0, k ≠ p') k hk p hp)

/-- C2: for every theme file made of twelve lines, one per recognizable
marker (the five slot keys in styleMap order followed by the seven `@cm-`
markers in `syntaxVars` order), where each line carries exactly its own
marker, all twelve extracted hex codes are distinct valid `#RRGGBB` values,
and no line contains the hex code of an earlier syntax line,
`get_theme_style` returns the color map holding the five slot lines' hex
values and the color list consisting of the 14 base accent colors followed
by the seven (deduplicated, here all-distinct) syntax hex codes, of length
at most 21. -/
theorem get_theme_style_roundtrip (theme : String)
    (s0 s1 s2 s3 s4 y0 y1 y2 y3 y4 y5 y6 : String)
    (hθ : theme ≠ "default")
    (hm0 : matchesOnly s0 "axisFace") (hm1 : matchesOnly s1 "figureFace")
    (hm2 : matchesOnly s2 "textColor") (hm3 : matchesOnly s3 "edgeColor")
    (hm4 : matchesOnly s4 "gridColor")
    (hn0 : matchesOnly y0 "@cm-atom") (hn1 : matchesOnly y1 "@cm-number")
    (hn2 : matchesOnly y2 "@cm-property") (hn3 : matchesOnly y3 "@cm-attribute")
    (hn4 : matchesOnly y4 "@cm-keyword") (hn5 : matchesOnly y5 "@cm-string")
    (hn6 : matchesOnly y6 "@cm-meta")
    (hval : ∀ line ∈ [s0, s1, s2, s3, s4, y0, y1, y2, y3, y4, y5, y6],
      isValidHex (get_hex_code line) = true)
    (hdist : (List.map get_hex_code
      [s0, s1, s2, s3, s4, y0, y1, y2, y3, y4, y5, y6]).Pairwise (· ≠ ·))
    (hnohex : List.Pairwise (fun a b => strContains (pyStrip b) (get_hex_code a) = false)
      [y0, y1, y2, y3, y4, y5, y6]) :
    get_theme_style theme [s0, s1, s2, s3, s4, y0, y1, y2, y3, y4, y5, y6] =
      ({ axisFace := get_hex_code s0, figureFace := get_hex_code s1,
         textColor := get_hex_code s2, edgeColor := get_hex_code s3,
         gridColor := get_hex_code s4 },
       get_color_list ++ [get_hex_code y0, get_hex_code y1, get_hex_code y2,
         get_hex_code y3, get_hex_code y4, get_hex_code y5, get_hex_code y6]) ∧
    (get_color_list ++ [get_hex_code y0, get_hex_code y1, get_hex_code y2,
      get_hex_code y3, get_hex_code y4, get_hex_code y5, get_hex_code y6]).length ≤ 21 := by
  refine ⟨?_, by simp [get_color_list]⟩
  -- hex validity of the syntax lines
  have hv0 : isValidHex (get_hex_code y0) = true := hval y0 (by simp)
  have hv1 : isValidHex (get_hex_code y1) = true := hval y1 (by simp)
  have hv2 : isValidHex (get_hex_code y2) = true := hval y2 (by simp)
  have hv3 : isValidHex (get_hex_code y3) = true := hval y3 (by simp)
  have hv4 : isValidHex (get_hex_code y4) = true := hval y4 (by simp)
  have hv5 : isValidHex (get_hex_code y5) = true := hval y5 (by simp)
  have hv6 : isValidHex (get_hex_code y6) = true := hval y6 (by simp)
  -- no earlier syntax hex re-matches a later syntax line
  obtain ⟨hno0, hnohex⟩ := List.pairwise_cons.mp hnohex
  obtain ⟨hno1, hnohex⟩ := List.pairwise_cons.mp hnohex
  obtain ⟨hno2, hnohex⟩ := List.pairwise_cons.mp hnohex
  obtain ⟨hno3, hnohex⟩ := List.pairwise_cons.mp hnohex
  obtain ⟨hno4, hnohex⟩ := List.pairwise_cons.mp hnohex
  obtain ⟨hno5, _⟩ := List.pairwise_cons.mp hnohex
  -- the seven syntax hex codes are distinct
  have hsyn_nodup : ([get_hex_code y0, get_hex_code y1, get_hex_code y2, get_hex_code y3,
      get_hex_code y4, get_hex_code y5, get_hex_code y6] : List String).Nodup := by
    have h12 : List.Pairwise (fun a b => a ≠ b)
        ([get_hex_code s0, get_hex_code s1, get_hex_code s2, get_hex_code s3,
          get_hex_code s4] ++
         [get_hex_code y0, get_hex_code y1, get_hex_code y2, get_hex_code y3,
          get_hex_code y4, get_hex_code y5, get_hex_code y6]) := by
      simpa using hdist
    exact (List.pairwise_append.mp h12).2.1
  -- compute the twelve scan steps
  have hfold : List.foldl scanLine
      (({ axisFace := "white", figureFace := "white", textColor := ".15",
          edgeColor := ".8", gridColor := ".8" } : StyleMap), syntaxVars0)
      [s0, s1, s2, s3, s4, y0, y1, y2, y3, y4, y5, y6] =
      (({ axisFace := get_hex_code s0, figureFace := get_hex_code s1,
          textColor := get_hex_code s2, edgeColor := get_hex_code s3,
          gridColor := get_hex_code s4 } : StyleMap),
       [get_hex_code y0, get_hex_code y1, get_hex_code y2, get_hex_code y3,
        get_hex_code y4, get_hex_code y5, get_hex_code y6]) := by
    rw [List.foldl_cons, show scanLine
        (({ axisFace := "white", figureFace := "white", textColor := ".15",
            edgeColor := ".8", gridColor := ".8" } : StyleMap), syntaxVars0) s0 =
        (({ axisFace := get_hex_code s0, figureFace := "white", textColor := ".15",
            edgeColor := ".8", gridColor := ".8" } : StyleMap), syntaxVars0) from by
      show (scanStyleLine s0 _, scanSyntaxLine s0 syntaxVars0) = _
      rw [scanStyleLine_axisFace hm0, scanSyntaxLine_id_slot (by decide) hm0]]
    rw [List.foldl_cons, show scanLine
        (({ axisFace := get_hex_code s0, figureFace := "white", textColor := ".15",
            edgeColor := ".8", gridColor := ".8" } : StyleMap), syntaxVars0) s1 =
        (({ axisFace := get_hex_code s0, figureFace := get_hex_code s1, textColor := ".15",
            edgeColor := ".8", gridColor := ".8" } : StyleMap), syntaxVars0) from by
      show (scanStyleLine s1 _, scanSyntaxLine s1 syntaxVars0) = _
      rw [scanStyleLine_figureFace hm1, scanSyntaxLine_id_slot (by decide) hm1]]
    rw [List.foldl_cons, show scanLine
        (({ axisFace := get_hex_code s0, figureFace := get_hex_code s1, textColor := ".15",
            edgeColor := ".8", gridColor := ".8" } : StyleMap), syntaxVars0) s2 =
        (({ axisFace := get_hex_code s0, figureFace := get_hex_code s1,
            textColor := get_hex_code s2, edgeColor := ".8", gridColor := ".8" } : StyleMap),
          syntaxVars0) from by
      show (scanStyleLine s2 _, scanSyntaxLine s2 syntaxVars0) = _
      rw [scanStyleLine_textColor hm2, scanSyntaxLine_id_slot (by decide) hm2]]
    rw [List.foldl_cons, show scanLine
        (({ axisFace := get_hex_code s0, figureFace := get_hex_code s1,
            textColor := get_hex_code s2, edgeColor := ".8", gridColor := ".8" } : StyleMap),
          syntaxVars0) s3 =
        (({ axisFace := get_hex_code s0, figureFace := get_hex_code s1,
            textColor := get_hex_code s2, edgeColor := get_hex_code s3,
            gridColor := ".8" } : StyleMap), syntaxVars0) from by
      show (scanStyleLine s3 _, scanSyntaxLine s3 syntaxVars0) = _
      rw [scanStyleLine_edgeColor hm3, scanSyntaxLine_id_slot (by decide) hm3]]
    rw [List.foldl_cons, show scanLine
        (({ axisFace := get_hex_code s0, figureFace := get_hex_code s1,
            textColor := get_hex_code s2, edgeColor := get_hex_code s3,
            gridColor := ".8" } : StyleMap), syntaxVars0) s4 =
        (({ axisFace := get_hex_code s0, figureFace := get_hex_code s1,
            textColor := get_hex_code s2, edgeColor := get_hex_code s3,
            gridColor := get_hex_code s4 } : StyleMap), syntaxVars0) from by
      show (scanStyleLine s4 _, scanSyntaxLine s4 syntaxVars0) = _
      rw [scanStyleLine_gridColor hm4, scanSyntaxLine_id_slot (by decide) hm4]]
    -- the five slot fields are now set; the seven syntax lines follow
    rw [List.foldl_cons, show scanLine
        (({ axisFace := get_hex_code s0, figureFace := get_hex_code s1,
            textColor := get_hex_code s2, edgeColor := get_hex_code s3,
            gridColor := get_hex_code s4 } : StyleMap), syntaxVars0) y0 =
        (({ axisFace := get_hex_code s0, figureFace := get_hex_code s1,
            textColor := get_hex_code s2, edgeColor := get_hex_code s3,
            gridColor := get_hex_code s4 } : StyleMap),
          [get_hex_code y0, "@cm-number", "@cm-property", "@cm-attribute", "@cm-keyword",
           "@cm-string", "@cm-meta"]) from by
      show (scanStyleLine y0 _, scanSyntaxLine y0 syntaxVars0) = _
      rw [scanStyleLine_id_syn (by decide) hn0]
      have hhit : scanSyntaxLine y0 syntaxVars0 =
          [get_hex_code y0, "@cm-number", "@cm-property", "@cm-attribute", "@cm-keyword",
           "@cm-string", "@cm-meta"] := by
        have h := scanSyntaxLine_hit y0 []
          ["@cm-number", "@cm-property", "@cm-attribute", "@cm-keyword", "@cm-string", "@cm-meta"]
          "@cm-atom" (by simp)
          (fun x hx => by
            simp only [List.mem_cons, List.not_mem_nil, or_false] at hx
            rcases hx with rfl | rfl | rfl | rfl | rfl | rfl <;>
              exact matchesOnly_neg hn0 (by decide) (by decide))
          (matchesOnly_pos hn0 (by decide)) (by simp)
        simpa using h
      rw [hhit]]
    rw [List.foldl_cons, show scanLine
        (({ axisFace := get_hex_code s0, figureFace := get_hex_code s1,
            textColor := get_hex_code s2, edgeColor := get_hex_code s3,
            gridColor := get_hex_code s4 } : StyleMap),
          [get_hex_code y0, "@cm-number", "@cm-property", "@cm-attribute", "@cm-keyword",
           "@cm-string", "@cm-meta"]) y1 =
        (({ axisFace := get_hex_code s0, figureFace := get_hex_code s1,
            textColor := get_hex_code s2, edgeColor := get_hex_code s3,
            gridColor := get_hex_code s4 } : StyleMap),
          [get_hex_code y0, get_hex_code y1, "@cm-property", "@cm-attribute", "@cm-keyword",
           "@cm-string", "@cm-meta"]) from by
      show (scanStyleLine y1 _, scanSyntaxLine y1 _) = _
      rw [scanStyleLine_id_syn (by decide) hn1]
      have hhit : scanSyntaxLine y1
          [get_hex_code y0, "@cm-number", "@cm-property", "@cm-attribute", "@cm-keyword",
           "@cm-string", "@cm-meta"] =
          [get_hex_code y0, get_hex_code y1, "@cm-property", "@cm-attribute", "@cm-keyword",
           "@cm-string", "@cm-meta"] := by
        have h := scanSyntaxLine_hit y1 [get_hex_code y0]
          ["@cm-property", "@cm-attribute", "@cm-keyword", "@cm-string", "@cm-meta"]
          "@cm-number"
          (fun x hx => by
            simp only [List.mem_cons, List.not_mem_nil, or_false] at hx
            rcases hx with rfl
            exact hno0 y1 (by simp))
          (fun x hx => by
            simp only [List.mem_cons, List.not_mem_nil, or_false] at hx
            rcases hx with rfl | rfl | rfl | rfl | rfl <;>
              exact matchesOnly_neg hn1 (by decide) (by decide))
          (matchesOnly_pos hn1 (by decide))
          (fun x hx => by
            simp only [List.mem_cons, List.not_mem_nil, or_false] at hx
            rcases hx with rfl
            exact validHex_ne_marker hv0 "@cm-number" (by decide))
        simpa using h
      rw [hhit]]
    rw [List.foldl_cons, show scanLine
        (({ axisFace := get_hex_code s0, figureFace := get_hex_code s1,
            textColor := get_hex_code s2, edgeColor := get_hex_code s3,
            gridColor := get_hex_code s4 } : StyleMap),
          [get_hex_code y0, get_hex_code y1, "@cm-property", "@cm-attribute", "@cm-keyword",
           "@cm-string", "@cm-meta"]) y2 =
        (({ axisFace := get_hex_code s0, figureFace := get_hex_code s1,
            textColor := get_hex_code s2, edgeColor := get_hex_code s3,
            gridColor := get_hex_code s4 } : StyleMap),
          [get_hex_code y0, get_hex_code y1, get_hex_code y2, "@cm-attribute", "@cm-keyword",
           "@cm-string", "@cm-meta"]) from by
      show (scanStyleLine y2 _, scanSyntaxLine y2 _) = _
      rw [scanStyleLine_id_syn (by decide) hn2]
      have hhit : scanSyntaxLine y2
          [get_hex_code y0, get_hex_code y1, "@cm-property", "@cm-attribute", "@cm-keyword",
           "@cm-string", "@cm-meta"] =
          [get_hex_code y0, get_hex_code y1, get_hex_code y2, "@cm-attribute", "@cm-keyword",
           "@cm-string", "@cm-meta"] := by
        have h := scanSyntaxLine_hit y2 [get_hex_code y0, get_hex_code y1]
          ["@cm-attribute", "@cm-keyword", "@cm-string", "@cm-meta"] "@cm-property"
          (fun x hx => by
            simp only [List.mem_cons, List.not_mem_nil, or_false] at hx
            rcases hx with rfl | rfl
            · exact hno0 y2 (by simp)
            · exact hno1 y2 (by simp))
          (fun x hx => by
            simp only [List.mem_cons, List.not_mem_nil, or_false] at hx
            rcases hx with rfl | rfl | rfl | rfl <;>
              exact matchesOnly_neg hn2 (by decide) (by decide))
          (matchesOnly_pos hn2 (by decide))
          (fun x hx => by
            simp only [List.mem_cons, List.not_mem_nil, or_false] at hx
            rcases hx with rfl | rfl
            · exact validHex_ne_marker hv0 "@cm-property" (by decide)
            · exact validHex_ne_marker hv1 "@cm-property" (by decide))
        simpa using h
      rw [hhit]]
    rw [List.foldl_cons, show scanLine
        (({ axisFace := get_hex_code s0, figureFace := get_hex_code s1,
            textColor := get_hex_code s2, edgeColor := get_hex_code s3,
            gridColor := get_hex_code s4 } : StyleMap),
          [get_hex_code y0, get_hex_code y1, get_hex_code y2, "@cm-attribute", "@cm-keyword",
           "@cm-string", "@cm-meta"]) y3 =
        (({ axisFace := get_hex_code s0, figureFace := get_hex_code s1,
            textColor := get_hex_code s2, edgeColor := get_hex_code s3,
            gridColor := get_hex_code s4 } : StyleMap),
          [get_hex_code y0, get_hex_code y1, get_hex_code y2, get_hex_code y3, "@cm-keyword",
           "@cm-string", "@cm-meta"]) from by
      show (scanStyleLine y3 _, scanSyntaxLine y3 _) = _
      rw [scanStyleLine_id_syn (by decide) hn3]
      have hhit : scanSyntaxLine y3
          [get_hex_code y0, get_hex_code y1, get_hex_code y2, "@cm-attribute", "@cm-keyword",
           "@cm-string", "@cm-meta"] =
          [get_hex_code y0, get_hex_code y1, get_hex_code y2, get_hex_code y3, "@cm-keyword",
           "@cm-string", "@cm-meta"] := by
        have h := scanSyntaxLine_hit y3 [get_hex_code y0, get_hex_code y1, get_hex_code y2]
          ["@cm-keyword", "@cm-string", "@cm-meta"] "@cm-attribute"
          (fun x hx => by
            simp only [List.mem_cons, List.not_mem_nil, or_false] at hx
            rcases hx with rfl | rfl | rfl
            · exact hno0 y3 (by simp)
            · exact hno1 y3 (by simp)
            · exact hno2 y3 (by simp))
          (fun x hx => by
            simp only [List.mem_cons, List.not_mem_nil, or_false] at hx
            rcases hx with rfl | rfl | rfl <;>
              exact matchesOnly_neg hn3 (by decide) (by decide))
          (matchesOnly_pos hn3 (by decide))
          (fun x hx => by
            simp only [List.mem_cons, List.not_mem_nil, or_false] at hx
            rcases hx with rfl | rfl | rfl
            · exact validHex_ne_marker hv0 "@cm-attribute" (by decide)
            · exact validHex_ne_marker hv1 "@cm-attribute" (by decide)
            · exact validHex_ne_marker hv2 "@cm-attribute" (by decide))
        simpa using h
      rw [hhit]]
    rw [List.foldl_cons, show scanLine
        (({ axisFace := get_hex_code s0, figureFace := get_hex_code s1,
            textColor := get_hex_code s2, edgeColor := get_hex_code s3,
            gridColor := get_hex_code s4 } : StyleMap),
          [get_hex_code y0, get_hex_code y1, get_hex_code y2, get_hex_code y3, "@cm-keyword",
           "@cm-string", "@cm-meta"]) y4 =
        (({ axisFace := get_hex_code s0, figureFace := get_hex_code s1,
            textColor := get_hex_code s2, edgeColor := get_hex_code s3,
            gridColor := get_hex_code s4 } : StyleMap),
          [get_hex_code y0, get_hex_code y1, get_hex_code y2, get_hex_code y3, get_hex_code y4,
           "@cm-string", "@cm-meta"]) from by
      show (scanStyleLine y4 _, scanSyntaxLine y4 _) = _
      rw [scanStyleLine_id_syn (by decide) hn4]
      have hhit : scanSyntaxLine y4
          [get_hex_code y0, get_hex_code y1, get_hex_code y2, get_hex_code y3, "@cm-keyword",
           "@cm-string", "@cm-meta"] =
          [get_hex_code y0, get_hex_code y1, get_hex_code y2, get_hex_code y3, get_hex_code y4,
           "@cm-string", "@cm-meta"] := by
        have h := scanSyntaxLine_hit y4
          [get_hex_code y0, get_hex_code y1, get_hex_code y2, get_hex_code y3]
          ["@cm-string", "@cm-meta"] "@cm-keyword"
          (fun x hx => by
            simp only [List.mem_cons, List.not_mem_nil, or_false] at hx
            rcases hx with rfl | rfl | rfl | rfl
            · exact hno0 y4 (by simp)
            · exact hno1 y4 (by simp)
            · exact hno2 y4 (by simp)
            · exact hno3 y4 (by simp))
          (fun x hx => by
            simp only [List.mem_cons, List.not_mem_nil, or_false] at hx
            rcases hx with rfl | rfl <;>
              exact matchesOnly_neg hn4 (by decide) (by decide))
          (matchesOnly_pos hn4 (by decide))
          (fun x hx => by
            simp only [List.mem_cons, List.not_mem_nil, or_false] at hx
            rcases hx with rfl | rfl | rfl | rfl
            · exact validHex_ne_marker hv0 "@cm-keyword" (by decide)
            · exact validHex_ne_marker hv1 "@cm-keyword" (by decide)
            · exact validHex_ne_marker hv2 "@cm-keyword" (by decide)
            · exact validHex_ne_marker hv3 "@cm-keyword" (by decide))
        simpa using h
      rw [hhit]]
    rw [List.foldl_cons, show scanLine
        (({ axisFace := get_hex_code s0, figureFace := get_hex_code s1,
            textColor := get_hex_code s2, edgeColor := get_hex_code s3,
            gridColor := get_hex_code s4 } : StyleMap),
          [get_hex_code y0, get_hex_code y1, get_hex_code y2, get_hex_code y3, get_hex_code y4,
           "@cm-string", "@cm-meta"]) y5 =
        (({ axisFace := get_hex_code s0, figureFace := get_hex_code s1,
            textColor := get_hex_code s2, edgeColor := get_hex_code s3,
            gridColor := get_hex_code s4 } : StyleMap),
          [get_hex_code y0, get_hex_code y1, get_hex_code y2, get_hex_code y3, get_hex_code y4,
           get_hex_code y5, "@cm-meta"]) from by
      show (scanStyleLine y5 _, scanSyntaxLine y5 _) = _
      rw [scanStyleLine_id_syn (by decide) hn5]
      have hhit : scanSyntaxLine y5
          [get_hex_code y0, get_hex_code y1, get_hex_code y2, get_hex_code y3, get_hex_code y4,
           "@cm-string", "@cm-meta"] =
          [get_hex_code y0, get_hex_code y1, get_hex_code y2, get_hex_code y3, get_hex_code y4,
           get_hex_code y5, "@cm-meta"] := by
        have h := scanSyntaxLine_hit y5
          [get_hex_code y0, get_hex_code y1, get_hex_code y2, get_hex_code y3, get_hex_code y4]
          ["@cm-meta"] "@cm-string"
          (fun x hx => by
            simp only [List.mem_cons, List.not_mem_nil, or_false] at hx
            rcases hx with rfl | rfl | rfl | rfl | rfl
            · exact hno0 y5 (by simp)
            · exact hno1 y5 (by simp)
            · exact hno2 y5 (by simp)
            · exact hno3 y5 (by simp)
            · exact hno4 y5 (by simp))
          (fun x hx => by
            simp only [List.mem_cons, List.not_mem_nil, or_false] at hx
            rcases hx with rfl
            exact matchesOnly_neg hn5 (by decide) (by decide))
          (matchesOnly_pos hn5 (by decide))
          (fun x hx => by
            simp only [List.mem_cons, List.not_mem_nil, or_false] at hx
            rcases hx with rfl | rfl | rfl | rfl | rfl
            · exact validHex_ne_marker hv0 "@cm-string" (by decide)
            · exact validHex_ne_marker hv1 "@cm-string" (by decide)
            · exact validHex_ne_marker hv2 "@cm-string" (by decide)
            · exact validHex_ne_marker hv3 "@cm-string" (by decide)
            · exact validHex_ne_marker hv4 "@cm-string" (by decide))
        simpa using h
      rw [hhit]]
    rw [List.foldl_cons, show scanLine
        (({ axisFace := get_hex_code s0, figureFace := get_hex_code s1,
            textColor := get_hex_code s2, edgeColor := get_hex_code s3,
            gridColor := get_hex_code s4 } : StyleMap),
          [get_hex_code y0, get_hex_code y1, get_hex_code y2, get_hex_code y3, get_hex_code y4,
           get_hex_code y5, "@cm-meta"]) y6 =
        (({ axisFace := get_hex_code s0, figureFace := get_hex_code s1,
            textColor := get_hex_code s2, edgeColor := get_hex_code s3,
            gridColor := get_hex_code s4 } : StyleMap),
          [get_hex_code y0, get_hex_code y1, get_hex_code y2, get_hex_code y3, get_hex_code y4,
           get_hex_code y5, get_hex_code y6]) from by
      show (scanStyleLine y6 _, scanSyntaxLine y6 _) = _
      rw [scanStyleLine_id_syn (by decide) hn6]
      have hhit : scanSyntaxLine y6
          [get_hex_code y0, get_hex_code y1, get_hex_code y2, get_hex_code y3, get_hex_code y4,
           get_hex_code y5, "@cm-meta"] =
          [get_hex_code y0, get_hex_code y1, get_hex_code y2, get_hex_code y3, get_hex_code y4,
           get_hex_code y5, get_hex_code y6] := by
        have h := scanSyntaxLine_hit y6
          [get_hex_code y0, get_hex_code y1, get_hex_code y2, get_hex_code y3, get_hex_code y4,
           get_hex_code y5]
          [] "@cm-meta"
          (fun x hx => by
            simp only [List.mem_cons, List.not_mem_nil, or_false] at hx
            rcases hx with rfl | rfl | rfl | rfl | rfl | rfl
            · exact hno0 y6 (by simp)
            · exact hno1 y6 (by simp)
            · exact hno2 y6 (by simp)
            · exact hno3 y6 (by simp)
            · exact hno4 y6 (by simp)
            · exact hno5 y6 (by simp))
          (by simp)
          (matchesOnly_pos hn6 (by decide))
          (fun x hx => by
            simp only [List.mem_cons, List.not_mem_nil, or_false] at hx
            rcases hx with rfl | rfl | rfl | rfl | rfl | rfl
            · exact validHex_ne_marker hv0 "@cm-meta" (by decide)
            · exact validHex_ne_marker hv1 "@cm-meta" (by decide)
            · exact validHex_ne_marker hv2 "@cm-meta" (by decide)
            · exact validHex_ne_marker hv3 "@cm-meta" (by decide)
            · exact validHex_ne_marker hv4 "@cm-meta" (by decide)
            · exact validHex_ne_marker hv5 "@cm-meta" (by decide))
        simpa using h
      rw [hhit]]
    rw [List.foldl_nil]
  simp only [get_theme_style, get_default_jtstyle, if_neg hθ]
  rw [hfold, List.dedup_eq_self.mpr hsyn_nodup]

/-- C2 witness: a concrete twelve-line theme file with distinct valid hex
values round-trips into the five-slot map and a 21-entry color list. -/
theorem get_theme_style_roundtrip_witness :
    get_theme_style "monokai"
      ["axisFace: #e00001;", "figureFace: #e00002;", "textColor: #e00003;",
       "edgeColor: #e00004;", "gridColor: #e00005;",
       "@cm-atom: #e00006;", "@cm-number: #e00007;", "@cm-property: #e00008;",
       "@cm-attribute: #e00009;", "@cm-keyword: #e0000a;", "@cm-string: #e0000b;",
       "@cm-meta: #e0000c;"] =
      ({ axisFace := get_hex_code "axisFace: #e00001;",
         figureFace := get_hex_code "figureFace: #e00002;",
         textColor := get_hex_code "textColor: #e00003;",
         edgeColor := get_hex_code "edgeColor: #e00004;",
         gridColor := get_hex_code "gridColor: #e00005;" },
       get_color_list ++ [get_hex_code "@cm-atom: #e00006;", get_hex_code "@cm-number: #e00007;",
         get_hex_code "@cm-property: #e00008;", get_hex_code "@cm-attribute: #e00009;",
         get_hex_code "@cm-keyword: #e0000a;", get_hex_code "@cm-string: #e0000b;",
         get_hex_code "@cm-meta: #e0000c;"]) ∧
    (get_color_list ++ [get_hex_code "@cm-atom: #e00006;", get_hex_code "@cm-number: #e00007;",
      get_hex_code "@cm-property: #e00008;", get_hex_code "@cm-attribute: #e00009;",
      get_hex_code "@cm-keyword: #e0000a;", get_hex_code "@cm-string: #e0000b;",
      get_hex_code "@cm-meta: #e0000c;"]).length ≤ 21 :=
  get_theme_style_roundtrip "monokai"
    "axisFace: #e00001;" "figureFace: #e00002;" "textColor: #e00003;"
    "edgeColor: #e00004;" "gridColor: #e00005;"
    "@cm-atom: #e00006;" "@cm-number: #e00007;" "@cm-property: #e00008;"
    "@cm-attribute: #e00009;" "@cm-keyword: #e0000a;" "@cm-string: #e0000b;"
    "@cm-meta: #e0000c;"
    (by decide) (by decide) (by decide) (by decide) (by decide) (by decide)
    (by decide) (by decide) (by decide) (by decide) (by decide) (by decide)
    (by decide) (by decide) (by decide) (by decide)

end Jtplot
